import Mathlib

/-!
Shallow embedding of the lead-enrichment pipeline
(`main.py` / `scraper_adapter.py` of the Google Maps scraper repository),
together with theorems settling the specification claims about it.

Cells of the pandas table are modelled as `Option Value`: `none` stands for
a missing cell (pandas `NaN`), `some v` for a present scalar.  Numeric
scalars are modelled as integers; the claims only ever depend on the fact
that a number stringifies to a non-blank string and is Python-truthy
exactly when non-zero, never on the decimal rendering itself.

Python string primitives (`lower`, `strip`, `replace`, `startswith`,
`re.sub(r"\s+", " ", ·)`) are modelled by executable character-list
functions below, restricted to ASCII case folding, which covers all
string data the pipeline and the claims manipulate.
-/

/-- ASCII lower-casing of one character, the fragment of Python
`str.lower` relevant to the header and key strings handled here. -/
def asciiLower (c : Char) : Char :=
  if 'A' ≤ c && c ≤ 'Z' then Char.ofNat (c.toNat + 32) else c

/-- Python `s.lower()` (ASCII fragment). -/
def pyLower (s : String) : String :=
  String.mk (s.data.map asciiLower)

/-- Python `s.replace(a, b)` for single-character arguments, as used by
`find_column` for `'_'` and `'-'`. -/
def replaceChar (a b : Char) (s : String) : String :=
  String.mk (s.data.map (fun c => if c = a then b else c))

/-- Python `s.strip()`: drop whitespace from both ends. -/
def pyStrip (s : String) : String :=
  String.mk
    (((s.data.dropWhile (fun c => c.isWhitespace)).reverse.dropWhile
      (fun c => c.isWhitespace)).reverse)

/-- Python `s.startswith(p)`. -/
def pyStartsWith (s p : String) : Bool :=
  p.data.isPrefixOf s.data

/-- Replace every maximal whitespace run by a single space, i.e. Python
`re.sub(r"\s+", " ", s)`.  The single space is emitted at the last
character of the run. -/
def squeezeChars : List Char → List Char
  | [] => []
  | c :: rest =>
    if c.isWhitespace then
      match rest with
      | c2 :: _ => if c2.isWhitespace then squeezeChars rest else ' ' :: squeezeChars rest
      | [] => [' ']
    else c :: squeezeChars rest

/-- Python `re.sub(r"\s+", " ", s)` on strings. -/
def squeezeWs (s : String) : String :=
  String.mk (squeezeChars s.data)

/-- A scalar cell value: a string or a number. -/
inductive Value where
  | str (s : String)
  | num (n : Int)
deriving DecidableEq, Repr

/-- Python `str(v)` for a scalar value. -/
def strOfValue : Value → String
  | Value.str s => s
  | Value.num n => toString n

/-- Python truthiness of a scalar value: `""` and `0` are falsy. -/
def pyTruthy : Value → Bool
  | Value.str s => s ≠ ""
  | Value.num n => n ≠ 0

/-- Normalisation used by `GoogleMapsReviewScraper.find_column`
(`main.py` lines 236-241): lower-case, replace `_` and `-` by spaces,
then strip leading and trailing whitespace.  Note: internal whitespace
runs are NOT collapsed. -/
def normalizeCol (s : String) : String :=
  pyStrip (replaceChar '-' ' ' (replaceChar '_' ' ' (pyLower s)))

/-- `GoogleMapsReviewScraper.find_column` (`main.py` lines 225-244):
return the first literal header whose normalised form equals the
normalised candidate name. -/
def find_column (cols : List String) (column_name : String) : Option String :=
  cols.find? (fun col => normalizeCol col == normalizeCol column_name)

/-- Modelled from the spec: the spec (section 4.1) claims the normalisation
also collapses whitespace runs to single spaces.  This second definition
follows the spec's words and exists only to be compared with the
source-derived `normalizeCol`. -/
def specNormalize (s : String) : String :=
  pyStrip (squeezeWs (replaceChar '-' ' ' (replaceChar '_' ' ' (pyLower s))))

/-- Skip check of the CLI email stage, `main.py` lines 591-593:
`existing and pd.notna(existing) and str(existing).strip()`. -/
def mainEmailSkip : Option Value → Bool
  | none => false
  | some v => pyTruthy v && pyStrip (strOfValue v) ≠ ""

/-- Skip check of the Streamlit adapter email stage,
`scraper_adapter.py` lines 214-215: additionally requires the value not
to start with `"Error"`. -/
def adapterEmailSkip : Option Value → Bool
  | none => false
  | some v => pyTruthy v && pyStrip (strOfValue v) ≠ "" &&
      !pyStartsWith (strOfValue v) "Error"

/-- One row of the email-generation loop (`main.py` lines 589-601,
`scraper_adapter.py` lines 212-231), parameterised by the skip check of
the respective implementation.  `gen` is the outcome of the opaque
text-generation collaborator.  Returns the new cell value and whether
generation was invoked for the row. -/
def emailRowStep (skip : Option Value → Bool) (existing : Option Value)
    (gen : Except String String) : Option Value × Bool :=
  if skip existing then (existing, false)
  else
    match gen with
    | Except.error e => (some (Value.str ("Error: " ++ e)), true)
    | Except.ok email => (some (Value.str email), true)

/-- The validity predicate `is_valid` of the Reviews stage
(`main.py` lines 687-692): a value is missing when it is `NaN` or a
string whose stripped form is `""` or `"Not Found"`; any number
(including `0`) counts as present. -/
def is_valid : Option Value → Bool
  | none => false
  | some (Value.str s) => !(pyStrip s == "" || pyStrip s == "Not Found")
  | some (Value.num _) => true

/-- The identifying-field emptiness test of the Reviews stage
(`main.py` lines 670-671): `pd.isna(v) or str(v).strip() == ''`. -/
def missingIdent : Option Value → Bool
  | none => true
  | some v => pyStrip (strOfValue v) == ""

/-- A row of the Reviews enrichment, restricted to the five columns the
stage reads or writes: the resolved name and address columns and the
three review columns. -/
structure ReviewRow where
  name : Option Value
  address : Option Value
  rating : Option Value
  count : Option Value
  url : Option Value
deriving DecidableEq, Repr

/-- An entry of `self.error_log` (`main.py` lines 672-678 and peers).
The wall-clock timestamp recorded by `datetime.now()` is an effect
outside the embedding and is not modelled. -/
structure ErrorRecord where
  row : Nat
  business_name : Option Value
  business_address : Option Value
  error : String
deriving DecidableEq, Repr

/-- The four per-row outcomes of the Reviews stage. -/
inductive ReviewOutcome where
  | errMissing
  | skipComplete
  | urlOnly
  | fullFetch
deriving DecidableEq, Repr

/-- Number of remote-calling branches entered for an outcome: the
skip and missing-identifier branches reach no remote call. -/
def outcomeRemoteCalls : ReviewOutcome → Nat
  | ReviewOutcome.errMissing => 0
  | ReviewOutcome.skipComplete => 0
  | ReviewOutcome.urlOnly => 1
  | ReviewOutcome.fullFetch => 1

/-- The two remote collaborators used by the Reviews stage:
`get_place_url_only` (URL-only lookup) and `enrich_business`
(full two-call fetch).  Both may fail with an error message, and each
returned field may itself be absent (`result.get`). -/
structure RemoteOracle where
  urlOnly : ReviewRow → Except String (Option Value)
  full : ReviewRow → Except String (Option Value × Option Value × Option Value)

/-- The body of the per-row loop of
`GoogleMapsReviewScraper.process_csv` (`main.py` lines 665-734):
missing identifying fields are checked first, then completeness of the
three review fields, then the URL-only branch, then the full fetch.
`idx` is the 0-based dataframe index; error records carry `idx + 2`
(1-based, counting the header line).  Returns the updated row, the
outcome taken, and the error records appended. -/
def processRow (o : RemoteOracle) (idx : Nat) (r : ReviewRow) :
    ReviewRow × ReviewOutcome × List ErrorRecord :=
  if missingIdent r.name || missingIdent r.address then
    (r, ReviewOutcome.errMissing,
      [⟨idx + 2, r.name, r.address, "Missing business name or address"⟩])
  else if is_valid r.rating && is_valid r.count && is_valid r.url then
    (r, ReviewOutcome.skipComplete, [])
  else if is_valid r.rating && is_valid r.count && !is_valid r.url then
    match o.urlOnly r with
    | Except.error e => (r, ReviewOutcome.urlOnly, [⟨idx + 2, r.name, r.address, e⟩])
    | Except.ok u => ({ r with url := u }, ReviewOutcome.urlOnly, [])
  else
    match o.full r with
    | Except.error e => (r, ReviewOutcome.fullFetch, [⟨idx + 2, r.name, r.address, e⟩])
    | Except.ok (ra, co, ur) =>
      ({ r with rating := ra, count := co, url := ur }, ReviewOutcome.fullFetch, [])

/-- The row iteration of `process_csv`, threading the dataframe index.
Returns the updated rows, the total number of remote-calling branches
entered, and the accumulated error log. -/
def processRows (o : RemoteOracle) (idx : Nat) :
    List ReviewRow → List ReviewRow × Nat × List ErrorRecord
  | [] => ([], 0, [])
  | r :: rest =>
    let step := processRow o idx r
    let restRes := processRows o (idx + 1) rest
    (step.1 :: restRes.1,
     outcomeRemoteCalls step.2.1 + restRes.2.1,
     step.2.2 ++ restRes.2.2)

/-- `GoogleMapsReviewScraper.process_csv` row loop started at dataframe
index 0, as in the source. -/
def process_csv (o : RemoteOracle) (rows : List ReviewRow) :
    List ReviewRow × Nat × List ErrorRecord :=
  processRows o 0 rows

/-- One business dictionary built by `search_businesses`
(`main.py` lines 447-456) from a returned place. -/
structure Business where
  name : String
  address : String
  phone : String
  website : String
  rating : Option Value
  count : Option Value
  mapsUrl : String
deriving DecidableEq, Repr

/-- One response of the places search endpoint as observed by
`search_businesses`: a transport exception, a non-200 status, a 200
response without a `places` payload, or a page of places with an
optional continuation token. -/
inductive PageResponse where
  | exn
  | httpError (code : Nat)
  | noPlaces
  | page (items : List Business) (token : Option String)
deriving DecidableEq, Repr

/-- Whether a response makes `search_businesses` break out of its
pagination loop without collecting anything from it. -/
def isFailureResponse : PageResponse → Bool
  | PageResponse.exn => true
  | PageResponse.httpError _ => true
  | PageResponse.noPlaces => true
  | PageResponse.page _ _ => false

/-- The per-page size requested by `search_businesses`
(`main.py` line 410): `min(max_results, 20)`. -/
def pageSize (max_results : Nat) : Nat :=
  min max_results 20

/-- The pagination loop of `GoogleMapsReviewScraper.search_businesses`
(`main.py` lines 428-465), modelled over the sequence of responses the
server returns for the successive requests.  While fewer than
`limit` businesses are collected, the next response is consumed (one
request issued); a failure response breaks; a page response appends its
items up to `limit` and continues only when a continuation token is
present and the limit is not yet reached.  Returns the collected
businesses and the number of requests issued.  An exhausted response
list yields no further requests. -/
def searchGo (limit : Nat) : List PageResponse → List Business → List Business × Nat
  | [], acc => (acc, 0)
  | resp :: rest, acc =>
    if acc.length < limit then
      match resp with
      | PageResponse.exn => (acc, 1)
      | PageResponse.httpError _ => (acc, 1)
      | PageResponse.noPlaces => (acc, 1)
      | PageResponse.page items token =>
        let acc2 := acc ++ items.take (limit - acc.length)
        if token.isSome && acc2.length < limit then
          let res := searchGo limit rest acc2
          (res.1, res.2 + 1)
        else (acc2, 1)
    else (acc, 0)

/-- `GoogleMapsReviewScraper.search_businesses` starting from the empty
accumulator. -/
def search_businesses (limit : Nat) (responses : List PageResponse) :
    List Business × Nat :=
  searchGo limit responses []

/-- A row as seen by the append-mode merge of
`GoogleMapsReviewScraper.process_search` (`main.py` lines 490-524):
the values of the (resolved) name and address columns and of the
`Google Maps URL` column, each possibly missing. -/
structure MergeRow where
  name : Option Value
  address : Option Value
  url : Option Value
deriving DecidableEq, Repr

/-- Pandas boolean-mask row selection `df[mask]`: keep the rows whose
mask entry is `true`. -/
def maskFilter (rows : List MergeRow) (mask : List Bool) : List MergeRow :=
  (rows.zip mask).filterMap (fun p => if p.2 then some p.1 else none)

/-- The trimmed URL-key set of the existing table
(`main.py` line 496): `dropna`, stringify, strip. -/
def existingTrimmedUrls (existing : List MergeRow) : List String :=
  existing.filterMap (fun r => r.url.map (fun v => pyStrip (strOfValue v)))

/-- The trimmed URL key of a freshly searched row
(`main.py` line 497): `fillna('')`, stringify, strip. -/
def newTrimmedUrl (r : MergeRow) : String :=
  pyStrip (strOfValue (r.url.getD (Value.str "")))

/-- Append-mode merge when the existing table has a `Google Maps URL`
column (`main.py` lines 494-497 and 523): drop the new rows whose
trimmed URL appears among the trimmed existing URLs, then concatenate
existing rows with the survivors. -/
def mergeByUrl (existing newRows : List MergeRow) : List MergeRow :=
  let urls := existingTrimmedUrls existing
  let keep := newRows.map (fun r => !urls.contains (newTrimmedUrl r))
  existing ++ maskFilter newRows keep

/-- The `normalize` helper of the fallback dedupe
(`main.py` lines 504-507): `''` for `NaN`, otherwise
`re.sub(r"\s+", " ", str(val)).strip().lower()`. -/
def pyNormalize : Option Value → String
  | none => ""
  | some v => pyLower (pyStrip (squeezeWs (strOfValue v)))

/-- The dedupe key `(normalized name, normalized address)` of a row
(`main.py` lines 509-515). -/
def rowKey (r : MergeRow) : String × String :=
  (pyNormalize r.name, pyNormalize r.address)

/-- The existing-key set of the fallback dedupe (`main.py` lines 509-514). -/
def existingKeys (existing : List MergeRow) : List (String × String) :=
  existing.map rowKey

/-- Name-column resolution on the existing table
(`main.py` line 500): `find_column(df, 'Company Name') or
find_column(df, 'Business Name')`. -/
def resolveNameCol (cols : List String) : Option String :=
  (find_column cols "Company Name").orElse (fun _ => find_column cols "Business Name")

/-- Address-column resolution on the existing table (`main.py` line 501). -/
def resolveAddrCol (cols : List String) : Option String :=
  (find_column cols "Company Address").orElse (fun _ => find_column cols "Business Address")

/-- Append-mode merge when the existing table lacks a `Google Maps URL`
column (`main.py` lines 499-523).  `cols` is the literal header list of
the existing table; each `MergeRow` of `existing` carries the values
under whichever literal name/address columns resolved.  If both columns
resolve, new rows whose key appears among the existing keys are
dropped; otherwise no dedupe happens and a warning is printed (the
returned flag). -/
def mergeNoUrl (cols : List String) (existing newRows : List MergeRow) :
    List MergeRow × Bool :=
  match resolveNameCol cols, resolveAddrCol cols with
  | some _, some _ =>
    let keys := existingKeys existing
    let keep := newRows.map (fun r => !keys.contains (rowKey r))
    (existing ++ maskFilter newRows keep, false)
  | _, _ => (existing ++ newRows, true)

/-- Behaviour of the website-fetch collaborator for one fetch: a page
body, or one of the three classified failures of
`WebsiteEnricher.fetch_website` (`main.py` lines 114-119). -/
inductive FetchOutcome where
  | ok (html : String)
  | timeout
  | ssl
  | reqFailed (msg : String)
deriving DecidableEq, Repr

/-- The five fields produced by `WebsiteEnricher.enrich_row`
(`main.py` lines 126-132). -/
structure WebResult where
  linkedin : String
  facebook : String
  instagram : String
  twitter : String
  brief : String
deriving DecidableEq, Repr

/-- A row as seen by the website-enrichment stage, restricted to the
columns it reads or writes. -/
structure WebRow where
  website : Option Value
  companyName : Option Value
  linkedin : Option Value
  facebook : Option Value
  instagram : Option Value
  twitter : Option Value
  brief : Option Value
deriving DecidableEq, Repr

/-- `WebsiteEnricher.fetch_website` (`main.py` lines 101-119): an empty
or missing URL yields the `"No website URL"` error without any remote
work; otherwise the collaborator's outcome is classified into
`"Timeout"`, `"SSL Error"`, or `"Request failed: "` plus the first 50
characters of the exception text. -/
def fetch_website (outcome : FetchOutcome) (url : Option Value) :
    Except String String :=
  match url with
  | none => Except.error "No website URL"
  | some v =>
    if !pyTruthy v then Except.error "No website URL"
    else
      match outcome with
      | FetchOutcome.ok h => Except.ok h
      | FetchOutcome.timeout => Except.error "Timeout"
      | FetchOutcome.ssl => Except.error "SSL Error"
      | FetchOutcome.reqFailed m =>
        Except.error ("Request failed: " ++ String.mk (m.data.take 50))

/-- `WebsiteEnricher.enrich_row` (`main.py` lines 121-147).  On a fetch
error only the research brief is set, to `"Could not fetch: <reason>"`,
and the social fields stay empty; on success the page is handed to the
opaque HTML extraction `parsed` (social-link patterns, title,
description and brief synthesis, excluded as an external collaborator
by the spec). -/
def enrich_row (outcome : FetchOutcome) (parsed : String → WebResult)
    (row : WebRow) : WebResult :=
  match fetch_website outcome row.website with
  | Except.error e => ⟨"", "", "", "", "Could not fetch: " ++ e⟩
  | Except.ok h => parsed h

/-- Skip check of the website stage (`main.py` lines 563-565): the row
is complete when it carries a truthy brief not starting with
`"Could not fetch"`. -/
def websiteSkip : Option Value → Bool
  | none => false
  | some v => pyTruthy v && !pyStartsWith (strOfValue v) "Could not fetch"

/-- Missing-website check of the website stage (`main.py` line 568):
`not row.get('Website') or pd.isna(row.get('Website'))`. -/
def websiteMissing : Option Value → Bool
  | none => true
  | some v => !pyTruthy v

/-- The body of the per-row loop of
`GoogleMapsReviewScraper.enrich_with_website_data`
(`main.py` lines 561-576): skip complete rows; give website-less rows
the `"No website available"` sentinel brief; otherwise write all five
fields of the `enrich_row` result into the row.  The returned flag
records whether a website fetch was performed. -/
def websiteStageStep (outcome : FetchOutcome) (parsed : String → WebResult)
    (row : WebRow) : WebRow × Bool :=
  if websiteSkip row.brief then (row, false)
  else if websiteMissing row.website then
    ({ row with brief := some (Value.str "No website available") }, false)
  else
    let r := enrich_row outcome parsed row
    ({ row with
        linkedin := some (Value.str r.linkedin),
        facebook := some (Value.str r.facebook),
        instagram := some (Value.str r.instagram),
        twitter := some (Value.str r.twitter),
        brief := some (Value.str r.brief) }, true)

/-- A sample business used in concrete test scenarios, distinguished by
its rating field. -/
def sampleBiz (i : Nat) : Business :=
  { name := "B", address := "A", phone := "", website := "",
    rating := some (Value.num i), count := some (Value.num 1), mapsUrl := "u" }

/-- The mocked response feed of the pagination scenario: 15 items with a
token, 15 items with a token, then an empty page with no token. -/
def scenarioResponses : List PageResponse :=
  [PageResponse.page ((List.range 15).map sampleBiz) (some "tok3"),
   PageResponse.page ((List.range 15).map (fun i => sampleBiz (15 + i))) (some "tok2"),
   PageResponse.page [] none]

/-- A remote oracle whose calls all fail; used for rows that are proved
never to reach a remote call. -/
def unusedOracle : RemoteOracle :=
  { urlOnly := fun _ => Except.error "unused",
    full := fun _ => Except.error "unused" }

/-- The row state after a failed website fetch: social fields written
empty, research brief set to the error sentinel. -/
def webFailRow (row : WebRow) (reason : String) : WebRow :=
  { row with
      linkedin := some (Value.str ""),
      facebook := some (Value.str ""),
      instagram := some (Value.str ""),
      twitter := some (Value.str ""),
      brief := some (Value.str ("Could not fetch: " ++ reason)) }

/-! ## Helper lemmas -/

/-- A list is a `isPrefixOf`-prefix of itself followed by anything. -/
theorem isPrefixOf_append_self (l r : List Char) : l.isPrefixOf (l ++ r) = true := by
  induction l with
  | nil => simp [List.isPrefixOf]
  | cons a t ih => simp [List.isPrefixOf, ih]

/-- Selecting by a mask computed pointwise from the rows is `filter`. -/
theorem maskFilter_map (rows : List MergeRow) (p : MergeRow → Bool) :
    maskFilter rows (rows.map p) = rows.filter p := by
  induction rows with
  | nil => rfl
  | cons r rest ih =>
    simp only [maskFilter, List.map_cons, List.zip_cons_cons, List.filterMap_cons,
      List.filter_cons]
    simp only [maskFilter] at ih
    cases h : p r <;> simp [h, ih]

/-- The pagination loop never grows the accumulator past the limit. -/
theorem searchGo_length_le (limit : Nat) :
    ∀ (rs : List PageResponse) (acc : List Business),
      acc.length ≤ limit → ((searchGo limit rs acc).1).length ≤ limit := by
  intro rs
  induction rs with
  | nil => intro acc h; simpa [searchGo] using h
  | cons resp rest ih =>
    intro acc h
    by_cases hlt : acc.length < limit
    · cases resp with
      | exn => simpa [searchGo, hlt] using h
      | httpError c => simpa [searchGo, hlt] using h
      | noPlaces => simpa [searchGo, hlt] using h
      | page items token =>
        have hacc2 : (acc ++ items.take (limit - acc.length)).length ≤ limit := by
          simp only [List.length_append, List.length_take]
          omega
        simp only [searchGo]
        rw [if_pos hlt]
        split
        · simpa using ih _ hacc2
        · simpa using hacc2
    · simpa [searchGo, hlt] using h

/-- After a run of full pages each carrying a continuation token, a
failure response stops the loop with exactly the items collected so
far and one request per consumed response. -/
theorem searchGo_stops_on_failure (limit : Nat) (bad : PageResponse)
    (hbad : isFailureResponse bad = true) (rest : List PageResponse) :
    ∀ (goods : List (List Business × String)) (acc : List Business),
      acc.length + ((goods.map (fun g => g.1.length)).sum) < limit →
      searchGo limit ((goods.map (fun g => PageResponse.page g.1 (some g.2))) ++ bad :: rest) acc
        = (acc ++ (goods.map (fun g => g.1)).flatten, goods.length + 1) := by
  intro goods
  induction goods with
  | nil =>
    intro acc h
    simp only [List.map_nil, List.sum_nil, Nat.add_zero] at h
    cases bad with
    | exn => simp [searchGo, h]
    | httpError c => simp [searchGo, h]
    | noPlaces => simp [searchGo, h]
    | page items token => simp [isFailureResponse] at hbad
  | cons g goods' ih =>
    intro acc h
    simp only [List.map_cons, List.sum_cons] at h
    have hlt : acc.length < limit := by omega
    have htake : g.1.take (limit - acc.length) = g.1 :=
      List.take_of_length_le (by omega)
    have hlen2 : (acc ++ g.1).length + ((goods'.map (fun x => x.1.length)).sum) < limit := by
      simp only [List.length_append]; omega
    have hacc2lt : (acc ++ g.1).length < limit := by
      simp only [List.length_append]; omega
    have ihres := ih (acc ++ g.1) hlen2
    simp only [List.map_cons, List.cons_append, searchGo, hlt, if_true, htake]
    simp [hacc2lt, ihres]
    omega

/-- Rows whose three review fields are all valid pass through the
iteration unchanged with no remote-calling branch entered. -/
theorem processRows_all_complete (o : RemoteOracle) :
    ∀ (rows : List ReviewRow) (i : Nat),
      (∀ r ∈ rows, is_valid r.rating = true ∧ is_valid r.count = true ∧ is_valid r.url = true) →
      (processRows o i rows).1 = rows ∧ (processRows o i rows).2.1 = 0 := by
  intro rows
  induction rows with
  | nil => intro i _; exact ⟨rfl, rfl⟩
  | cons r rest ih =>
    intro i h
    have hr := h r (by simp)
    have hrest := ih (i + 1) (fun x hx => h x (by simp [hx]))
    have hstep : (processRow o i r).1 = r ∧ outcomeRemoteCalls (processRow o i r).2.1 = 0 := by
      by_cases hmi : (missingIdent r.name || missingIdent r.address) = true
      · simp [processRow, hmi, outcomeRemoteCalls]
      · simp [processRow, hmi, hr.1, hr.2.1, hr.2.2, outcomeRemoteCalls]
    constructor
    · simp [processRows, hstep.1, hrest.1]
    · simp [processRows, hstep.2, hrest.2]

/-! ## Claim C1 -/

/-- Claim C1, as stated, is false for the CLI email stage: a row whose
existing `Generated Email` value begins with `"Error:"` passes the
already-complete check of `main.py` (which tests only non-blankness),
so a subsequent run skips the row and does not re-invoke generation. -/
theorem claim1_counterexample :
    pyStartsWith "Error: LLM error: boom" "Error:" = true ∧
    emailRowStep mainEmailSkip (some (Value.str "Error: LLM error: boom"))
        (Except.ok "regenerated")
      = (some (Value.str "Error: LLM error: boom"), false) := by
  decide

/-- Claim C1 amended: in the Streamlit adapter's email stage an
`"Error"`-prefixed value fails the already-complete check, so generation
is re-invoked for the row, and only non-blank values not starting with
`"Error"` cause a skip; in the CLI stage of `main.py` any non-blank
value, including an `"Error:"`-prefixed one, causes a skip. -/
theorem claim1_amended (s : String) (gen : Except String String)
    (herr : pyStartsWith s "Error" = true) (hne : pyStrip s ≠ "") :
    (emailRowStep adapterEmailSkip (some (Value.str s)) gen).2 = true ∧
    (emailRowStep mainEmailSkip (some (Value.str s)) gen).2 = false ∧
    (∀ t : String, pyStrip t ≠ "" → pyStartsWith t "Error" = false →
      (emailRowStep adapterEmailSkip (some (Value.str t)) gen).2 = false) := by
  have hsne : s ≠ "" := by
    intro hcontra
    exact hne (by simp [hcontra, pyStrip])
  refine ⟨?_, ?_, ?_⟩
  · cases gen <;> simp [emailRowStep, adapterEmailSkip, strOfValue, herr]
  · cases gen <;> simp [emailRowStep, mainEmailSkip, strOfValue, pyTruthy, hsne, hne]
  · intro t ht hterr
    have htne : t ≠ "" := by
      intro hcontra
      exact ht (by simp [hcontra, pyStrip])
    cases gen <;>
      simp [emailRowStep, adapterEmailSkip, strOfValue, pyTruthy, htne, ht, hterr]

/-- Witness for `claim1_amended` at the concrete value
`"Error: LLM error: boom"`. -/
theorem claim1_amended_witness :
    pyStartsWith "Error: LLM error: boom" "Error" = true ∧
    pyStrip "Error: LLM error: boom" ≠ "" ∧
    (emailRowStep adapterEmailSkip (some (Value.str "Error: LLM error: boom"))
        (Except.ok "regenerated")).2 = true := by
  refine ⟨by decide, by decide, ?_⟩
  exact (claim1_amended "Error: LLM error: boom" (Except.ok "regenerated")
    (by decide) (by decide)).1

/-! ## Claim C2 -/

/-- Claim C2, as stated, is false: the normalisation of `find_column`
does not collapse internal whitespace runs, so `"Business  Name"` (with
a double space) and `"Business Name"` are equal under the
spec-described normalisation but do not resolve against each other. -/
theorem claim2_counterexample :
    specNormalize "Business  Name" = specNormalize "Business Name" ∧
    find_column ["Business Name"] "Business  Name" = none ∧
    find_column ["Business  Name"] "Business Name" = none := by
  decide

/-- Claim C2 amended: `find_column`'s normalisation lower-cases, maps
`'_'` and `'-'` to spaces, and trims leading and trailing whitespace,
but does not collapse internal whitespace runs; for every pair of
strings equal after THIS normalisation (e.g. `"Business Name"` vs
`"business_name"`, but not `"Business  Name"` with a double space),
resolving either candidate against a table containing the other
returns a literal column with that normalised form — in particular, on
a one-column table, exactly the other string. -/
theorem claim2_amended (cols : List String) (a b : String)
    (hmem : b ∈ cols) (h : normalizeCol a = normalizeCol b) :
    (∃ c, find_column cols a = some c ∧ normalizeCol c = normalizeCol a) ∧
    find_column [b] a = some b ∧ find_column [a] b = some a := by
  refine ⟨?_, ?_, ?_⟩
  · have hsome : (cols.find? (fun col => normalizeCol col == normalizeCol a)).isSome := by
      rw [List.find?_isSome]
      exact ⟨b, hmem, by simp [h]⟩
    obtain ⟨c, hc⟩ := Option.isSome_iff_exists.mp hsome
    refine ⟨c, hc, ?_⟩
    have hp := List.find?_some hc
    simpa using hp
  · simp [find_column, List.find?, h]
  · simp [find_column, List.find?, h]

/-- Witness for `claim2_amended` at `"business_name"` against a table
containing `"Business Name"`. -/
theorem claim2_amended_witness :
    "Business Name" ∈ ["Business Name"] ∧
    normalizeCol "business_name" = normalizeCol "Business Name" ∧
    find_column ["Business Name"] "business_name" = some "Business Name" := by
  refine ⟨by decide, by decide, ?_⟩
  exact (claim2_amended ["Business Name"] "business_name" "Business Name"
    (by decide) (by decide)).2.1

/-! ## Claim C3 -/

/-- Claim C3: running the Reviews enrichment over a table in which every
row's rating, review count and detail URL are all present performs zero
remote calls and leaves every row identical to its value before the
run. -/
theorem claim3_reviews_idempotent (o : RemoteOracle) (rows : List ReviewRow)
    (h : ∀ r ∈ rows, is_valid r.rating = true ∧ is_valid r.count = true ∧ is_valid r.url = true) :
    (process_csv o rows).1 = rows ∧ (process_csv o rows).2.1 = 0 :=
  processRows_all_complete o rows 0 h

/-- Witness for `claim3_reviews_idempotent` on a one-row fully-enriched
table. -/
theorem claim3_reviews_idempotent_witness :
    (∀ r ∈ [ReviewRow.mk (some (Value.str "Alpha Dental"))
        (some (Value.str "123 Main St")) (some (Value.num 5))
        (some (Value.num 10)) (some (Value.str "https://maps.example/a"))],
      is_valid r.rating = true ∧ is_valid r.count = true ∧ is_valid r.url = true) ∧
    (process_csv unusedOracle [ReviewRow.mk (some (Value.str "Alpha Dental"))
        (some (Value.str "123 Main St")) (some (Value.num 5))
        (some (Value.num 10)) (some (Value.str "https://maps.example/a"))]).1
      = [ReviewRow.mk (some (Value.str "Alpha Dental"))
        (some (Value.str "123 Main St")) (some (Value.num 5))
        (some (Value.num 10)) (some (Value.str "https://maps.example/a"))] ∧
    (process_csv unusedOracle [ReviewRow.mk (some (Value.str "Alpha Dental"))
        (some (Value.str "123 Main St")) (some (Value.num 5))
        (some (Value.num 10)) (some (Value.str "https://maps.example/a"))]).2.1 = 0 := by
  refine ⟨by decide, ?_, ?_⟩
  · exact (claim3_reviews_idempotent unusedOracle _ (by decide)).1
  · exact (claim3_reviews_idempotent unusedOracle _ (by decide)).2

/-! ## Claim C4 -/

/-- Claim C4: the search client requests pages of at most 20 results; on
the mocked 15-item, 15-item, 0-item feed with limit 20 it returns
exactly the first 20 businesses using exactly 2 page requests; and for
every feed and limit the returned list never exceeds the limit. -/
theorem claim4_pagination :
    (∀ m, pageSize m ≤ 20) ∧
    search_businesses 20 scenarioResponses = ((List.range 20).map sampleBiz, 2) ∧
    (∀ (limit : Nat) (rs : List PageResponse),
      ((search_businesses limit rs).1).length ≤ limit) := by
  refine ⟨fun m => min_le_right m 20, ?_, ?_⟩
  · decide
  · intro limit rs
    exact searchGo_length_le limit rs [] (by simp)

/-! ## Claim C5 -/

/-- Claim C5: during pagination, a failure response (transport
exception, non-200 status, or missing places payload) on any page stops
the loop at once, returning exactly the items collected from the
preceding successful pages, with one request per consumed response and
no retry. -/
theorem claim5_stops_on_failure (goods : List (List Business × String))
    (bad : PageResponse) (rest : List PageResponse) (limit : Nat)
    (hbad : isFailureResponse bad = true)
    (hlen : ((goods.map (fun g => g.1.length)).sum) < limit) :
    search_businesses limit
        ((goods.map (fun g => PageResponse.page g.1 (some g.2))) ++ bad :: rest)
      = ((goods.map (fun g => g.1)).flatten, goods.length + 1) := by
  have h := searchGo_stops_on_failure limit bad hbad rest goods [] (by simpa using hlen)
  simpa [search_businesses] using h

/-- Witness for `claim5_stops_on_failure`: one successful page of one
item followed by a failing response under limit 5. -/
theorem claim5_stops_on_failure_witness :
    isFailureResponse PageResponse.noPlaces = true ∧
    ((([([sampleBiz 0], "tok")] : List (List Business × String)).map
        (fun g => g.1.length)).sum) < 5 ∧
    search_businesses 5
        [PageResponse.page [sampleBiz 0] (some "tok"), PageResponse.noPlaces]
      = ([sampleBiz 0], 2) := by
  refine ⟨by decide, by decide, ?_⟩
  have h := claim5_stops_on_failure [([sampleBiz 0], "tok")] PageResponse.noPlaces [] 5
    (by decide) (by decide)
  simpa using h

/-! ## Claim C6 -/

/-- Claim C6: when the existing table has a detail-URL column, the merge
output is exactly the existing rows, unchanged and in order, followed
by the new rows whose trimmed URL does not appear among the trimmed
existing URLs; a new row with a matching trimmed URL is dropped, and no
pre-existing row is ever dropped. -/
theorem claim6_merge_by_url (existing newRows : List MergeRow) :
    (mergeByUrl existing newRows).take existing.length = existing ∧
    (mergeByUrl existing newRows).drop existing.length
      = newRows.filter (fun r => !(existingTrimmedUrls existing).contains (newTrimmedUrl r)) := by
  constructor
  · simp only [mergeByUrl]
    exact List.take_left existing _
  · simp only [mergeByUrl]
    rw [List.drop_left]
    exact maskFilter_map newRows _

/-! ## Claim C7 -/

/-- Claim C7: when the existing table lacks a detail-URL column, the
merge dedupes by the pair of lower-cased, whitespace-collapsed name and
address — as in the Alpha Dental example, where the renormalised
duplicate is dropped and Gamma Clinic is kept — and when either the
name or the address column fails to resolve on the existing table, no
new row is dropped: everything is unioned in, with the warning flag
set. -/
theorem claim7_merge_fallback (cols : List String) (existing newRows : List MergeRow) :
    ((resolveNameCol cols).isSome → (resolveAddrCol cols).isSome →
      mergeNoUrl cols existing newRows
        = (existing ++ newRows.filter
            (fun r => !(existingKeys existing).contains (rowKey r)), false)) ∧
    ((resolveNameCol cols = none ∨ resolveAddrCol cols = none) →
      mergeNoUrl cols existing newRows = (existing ++ newRows, true)) ∧
    mergeNoUrl ["Company Name", "Company Address"]
        [MergeRow.mk (some (Value.str "Alpha Dental"))
          (some (Value.str "123 Main St, Austin, TX")) none]
        [MergeRow.mk (some (Value.str " alpha  dental "))
          (some (Value.str "123   Main St, Austin, TX")) none,
         MergeRow.mk (some (Value.str "Gamma Clinic"))
          (some (Value.str "789 Pine Rd, Austin, TX")) none]
      = ([MergeRow.mk (some (Value.str "Alpha Dental"))
          (some (Value.str "123 Main St, Austin, TX")) none,
          MergeRow.mk (some (Value.str "Gamma Clinic"))
          (some (Value.str "789 Pine Rd, Austin, TX")) none], false) := by
  refine ⟨?_, ?_, ?_⟩
  · intro hn ha
    obtain ⟨cn, hcn⟩ := Option.isSome_iff_exists.mp hn
    obtain ⟨ca, hca⟩ := Option.isSome_iff_exists.mp ha
    simp only [mergeNoUrl, hcn, hca]
    rw [maskFilter_map]
  · intro hfail
    rcases hfail with hf | hf
    · simp only [mergeNoUrl, hf]
    · simp only [mergeNoUrl, hf]
      cases resolveNameCol cols <;> rfl
  · decide

/-- Witness for `claim7_merge_fallback`: on a table whose only header is
`"Foo"`, neither name nor address resolves and the new row is unioned
in undeduplicated, with the warning flag. -/
theorem claim7_merge_fallback_witness :
    resolveNameCol ["Foo"] = none ∧
    mergeNoUrl ["Foo"]
        [MergeRow.mk (some (Value.str "Alpha Dental"))
          (some (Value.str "123 Main St, Austin, TX")) none]
        [MergeRow.mk (some (Value.str " alpha  dental "))
          (some (Value.str "123   Main St, Austin, TX")) none]
      = ([MergeRow.mk (some (Value.str "Alpha Dental"))
          (some (Value.str "123 Main St, Austin, TX")) none,
          MergeRow.mk (some (Value.str " alpha  dental "))
          (some (Value.str "123   Main St, Austin, TX")) none], true) := by
  refine ⟨by decide, ?_⟩
  exact (claim7_merge_fallback ["Foo"] _ _).2.1 (Or.inl (by decide))

/-! ## Claim C8 -/

/-- Claim C8, as stated, is false: the Reviews stage checks the missing
identifying-fields outcome (d) before the completeness outcome (a), so
a row whose rating, count and URL are all present but whose name is
missing is not skipped as already-complete; it gets an ErrorRecord. -/
theorem claim8_counterexample :
    is_valid (some (Value.num 5)) = true ∧
    is_valid (some (Value.num 10)) = true ∧
    is_valid (some (Value.str "https://maps.example/a")) = true ∧
    processRow unusedOracle 0
        (ReviewRow.mk none (some (Value.str "123 Main St")) (some (Value.num 5))
          (some (Value.num 10)) (some (Value.str "https://maps.example/a")))
      = (ReviewRow.mk none (some (Value.str "123 Main St")) (some (Value.num 5))
          (some (Value.num 10)) (some (Value.str "https://maps.example/a")),
         ReviewOutcome.errMissing,
         [ErrorRecord.mk 2 none (some (Value.str "123 Main St"))
           "Missing business name or address"]) := by
  decide

/-- Claim C8 amended: the Reviews stage evaluates outcome (d) — missing
identifying fields — first, and then (a), (b), (c) in the stated order;
hence a row whose three review fields are present is skipped as
already-complete, with no remote call and no ErrorRecord, only when its
identifying fields are also present; with a missing identifying field
the same review-complete row instead yields exactly one ErrorRecord,
still with no remote call. -/
theorem claim8_amended (o : RemoteOracle) (i : Nat) (r s : ReviewRow)
    (hrv : is_valid r.rating = true) (hrc : is_valid r.count = true)
    (hru : is_valid r.url = true)
    (hrid : (missingIdent r.name || missingIdent r.address) = false)
    (hsv : is_valid s.rating = true) (hsc : is_valid s.count = true)
    (hsu : is_valid s.url = true)
    (hsid : (missingIdent s.name || missingIdent s.address) = true) :
    processRow o i r = (r, ReviewOutcome.skipComplete, []) ∧
    outcomeRemoteCalls (processRow o i r).2.1 = 0 ∧
    processRow o i s
      = (s, ReviewOutcome.errMissing,
         [ErrorRecord.mk (i + 2) s.name s.address "Missing business name or address"]) ∧
    outcomeRemoteCalls (processRow o i s).2.1 = 0 := by
  have h1 : processRow o i r = (r, ReviewOutcome.skipComplete, []) := by
    simp [processRow, hrid, hrv, hrc, hru]
  have h2 : processRow o i s
      = (s, ReviewOutcome.errMissing,
         [ErrorRecord.mk (i + 2) s.name s.address "Missing business name or address"]) := by
    simp [processRow, hsid]
  exact ⟨h1, by simp [h1, outcomeRemoteCalls], h2, by simp [h2, outcomeRemoteCalls]⟩

/-- Witness for `claim8_amended` on two concrete review-complete rows,
one with identifying fields and one without. -/
theorem claim8_amended_witness :
    (missingIdent (some (Value.str "Alpha Dental")) ||
      missingIdent (some (Value.str "123 Main St"))) = false ∧
    (missingIdent (none : Option Value) ||
      missingIdent (some (Value.str "123 Main St"))) = true ∧
    processRow unusedOracle 0
        (ReviewRow.mk (some (Value.str "Alpha Dental")) (some (Value.str "123 Main St"))
          (some (Value.num 5)) (some (Value.num 10)) (some (Value.str "https://m/a")))
      = (ReviewRow.mk (some (Value.str "Alpha Dental")) (some (Value.str "123 Main St"))
          (some (Value.num 5)) (some (Value.num 10)) (some (Value.str "https://m/a")),
         ReviewOutcome.skipComplete, []) := by
  refine ⟨by decide, by decide, ?_⟩
  exact (claim8_amended unusedOracle 0
    (ReviewRow.mk (some (Value.str "Alpha Dental")) (some (Value.str "123 Main St"))
      (some (Value.num 5)) (some (Value.num 10)) (some (Value.str "https://m/a")))
    (ReviewRow.mk none (some (Value.str "123 Main St"))
      (some (Value.num 5)) (some (Value.num 10)) (some (Value.str "https://m/a")))
    (by decide) (by decide) (by decide) (by decide)
    (by decide) (by decide) (by decide) (by decide)).1

/-! ## Claim C9 -/

/-- Claim C9: a row with both identifying fields missing gets no remote
call, is merged into unchanged, and contributes exactly one ErrorRecord
whose row ordinal is the 0-based dataframe index plus 2 (1-based,
counting the header line, so the first data row gets ordinal 2), after
which processing continues with the remaining rows. -/
theorem claim9_missing_ident (o : RemoteOracle) (i : Nat) (r : ReviewRow)
    (rest : List ReviewRow)
    (hn : missingIdent r.name = true) (ha : missingIdent r.address = true) :
    processRow o i r
      = (r, ReviewOutcome.errMissing,
         [ErrorRecord.mk (i + 2) r.name r.address "Missing business name or address"]) ∧
    outcomeRemoteCalls (processRow o i r).2.1 = 0 ∧
    processRows o i (r :: rest)
      = (r :: (processRows o (i + 1) rest).1,
         (processRows o (i + 1) rest).2.1,
         ErrorRecord.mk (i + 2) r.name r.address "Missing business name or address"
           :: (processRows o (i + 1) rest).2.2) := by
  have h1 : processRow o i r
      = (r, ReviewOutcome.errMissing,
         [ErrorRecord.mk (i + 2) r.name r.address "Missing business name or address"]) := by
    simp [processRow, hn]
  refine ⟨h1, by simp [h1, outcomeRemoteCalls], ?_⟩
  simp [processRows, h1, outcomeRemoteCalls]

/-- Witness for `claim9_missing_ident`: the first data row of a file
(dataframe index 0) with both identifying fields missing yields the
ordinal-2 ErrorRecord. -/
theorem claim9_missing_ident_witness :
    missingIdent ((none : Option Value)) = true ∧
    processRows unusedOracle 0
        [ReviewRow.mk none (some (Value.str "   ")) (some (Value.num 5)) none none]
      = ([ReviewRow.mk none (some (Value.str "   ")) (some (Value.num 5)) none none],
         0,
         [ErrorRecord.mk 2 none (some (Value.str "   "))
           "Missing business name or address"]) := by
  refine ⟨by decide, ?_⟩
  have h := (claim9_missing_ident unusedOracle 0
    (ReviewRow.mk none (some (Value.str "   ")) (some (Value.num 5)) none none) []
    (by decide) (by decide)).2.2
  simpa [processRows] using h

/-! ## Claim C10 -/

/-- Claim C10: in the website stage, when a row's fetch fails with a
timeout, TLS error, or other request error, the merged result carries
only the error brief `"Could not fetch: <reason>"` while the social
fields end up empty; any `"Could not fetch: ..."` brief fails the
already-complete check, so such a row is retried (a fetch is performed)
on a subsequent run, whereas a row carrying the `"No website
available"` sentinel is treated as complete and skipped. -/
theorem claim10_website_errors (parsed : String → WebResult) (row : WebRow)
    (m e : String)
    (hskip : websiteSkip row.brief = false)
    (hweb : websiteMissing row.website = false) :
    websiteStageStep FetchOutcome.timeout parsed row
      = (webFailRow row "Timeout", true) ∧
    websiteStageStep FetchOutcome.ssl parsed row
      = (webFailRow row "SSL Error", true) ∧
    websiteStageStep (FetchOutcome.reqFailed m) parsed row
      = (webFailRow row ("Request failed: " ++ String.mk (m.data.take 50)), true) ∧
    websiteSkip (some (Value.str ("Could not fetch: " ++ e))) = false ∧
    (∀ fo, (websiteStageStep fo parsed
        { row with brief := some (Value.str ("Could not fetch: " ++ e)) }).2 = true) ∧
    (∀ fo r2, r2.brief = some (Value.str "No website available") →
      websiteStageStep fo parsed r2 = (r2, false)) := by
  obtain ⟨w, hw, hwt⟩ : ∃ w, row.website = some w ∧ pyTruthy w = true := by
    cases hww : row.website with
    | none => simp [websiteMissing, hww] at hweb
    | some w =>
      refine ⟨w, rfl, ?_⟩
      simpa [websiteMissing, hww] using hweb
  have herrbrief : ∀ x : String,
      websiteSkip (some (Value.str ("Could not fetch: " ++ x))) = false := by
    intro x
    have hpre : pyStartsWith ("Could not fetch: " ++ x) "Could not fetch" = true := by
      have : ("Could not fetch: " ++ x).data
          = ("Could not fetch").data ++ (": " ++ x).data := by
        simp [String.data_append]
      simp [pyStartsWith, this, isPrefixOf_append_self]
    simp [websiteSkip, strOfValue, hpre]
  have hwm : websiteMissing (some w) = false := by
    simp [websiteMissing, hwt]
  refine ⟨?_, ?_, ?_, herrbrief e, ?_, ?_⟩
  · simp [websiteStageStep, hskip, hweb, enrich_row, fetch_website, hw, hwt, hwm, webFailRow]
  · simp [websiteStageStep, hskip, hweb, enrich_row, fetch_website, hw, hwt, hwm, webFailRow]
  · simp [websiteStageStep, hskip, hweb, enrich_row, fetch_website, hw, hwt, hwm, webFailRow]
  · intro fo
    cases fo <;>
      simp [websiteStageStep, herrbrief e, enrich_row, fetch_website, hw, hwt, hwm]
  · intro fo r2 hbrief
    have hskip2 : websiteSkip r2.brief = true := by
      simp [websiteSkip, hbrief, strOfValue, pyTruthy, pyStartsWith]
      decide
    simp [websiteStageStep, hskip2]

/-- Witness for `claim10_website_errors` on a concrete row with a
website and no brief, under a trivial parser. -/
theorem claim10_website_errors_witness :
    websiteSkip ((none : Option Value)) = false ∧
    websiteMissing (some (Value.str "example.com")) = false ∧
    websiteStageStep FetchOutcome.timeout (fun _ => WebResult.mk "" "" "" "" "")
        (WebRow.mk (some (Value.str "example.com")) (some (Value.str "Acme"))
          none none none none none)
      = (webFailRow (WebRow.mk (some (Value.str "example.com"))
          (some (Value.str "Acme")) none none none none none) "Timeout", true) := by
  refine ⟨by decide, by decide, ?_⟩
  exact (claim10_website_errors (fun _ => WebResult.mk "" "" "" "" "")
    (WebRow.mk (some (Value.str "example.com")) (some (Value.str "Acme"))
      none none none none none) "m" "e" (by decide) (by decide)).1
